import Mathlib

/-!
Shallow embedding of the Wikidata-Fetcher client (src/client.py) and proofs
about the claims of its specification.  The transport layer (the requests
session with its transient 5xx retry policy) is abstracted into a sequence of
final per-attempt outcomes, which is exactly what the retry loop in
`WikidataFetcher.query` observes.
-/

namespace Wikidata

/-- A final transport-level HTTP response as the retry loop observes it:
status code, the value of the Retry-After header when present, and the body
text.  These are the fields of the requests Response object that
`WikidataFetcher.query` reads. -/
structure Response where
  status : Nat
  retryAfter : Option String
  body : String
deriving Repr, DecidableEq

/-- Semantics of the requests library property `response.ok`: it calls
raise_for_status and answers false exactly when that raises, and
raise_for_status raises exactly for status codes in [400, 600).  So ok
holds for every status below 400 and also for every status at 600 or
above. -/
def Response.ok (r : Response) : Bool :=
  !(400 ≤ r.status && r.status < 600)

/-- Python exception values that `query` can raise, tagged by the Python
exception class (ValueError or RuntimeError) and carrying the message
string.  The code raises no other exception classes itself; caught
requests.RequestException values are re-raised wrapped as RuntimeError. -/
inductive QueryError where
  | valueError (msg : String)
  | runtimeError (msg : String)
deriving Repr, DecidableEq

/-- A decoded success value: the result of `response.json()` for the json
format, or `response.text` for csv (src/client.py lines 102-105).  JSON
syntax itself is not modelled; the decoded value is identified by the body
it came from and the decode strategy applied. -/
inductive QueryResult where
  | jsonResult (body : String)
  | textResult (body : String)
deriving Repr, DecidableEq

/-- The terminal outcome of one call to `query`: a decoded success, a raised
exception, or the trailing `return None` at src/client.py line 122. -/
inductive Outcome where
  | success (r : QueryResult)
  | error (e : QueryError)
  | noneResult
deriving Repr, DecidableEq

/-- The HTTP method chosen for the request (src/client.py lines 95-98). -/
inductive Method where
  | get
  | post
deriving Repr, DecidableEq

/-- What one `session.get` or `session.post` call delivers to the loop body:
either a final response, or a raised requests.RequestException (connection
failure, timeout, or exhausted transport-level 5xx retries) carrying its
message. -/
inductive TransportResult where
  | resp (r : Response)
  | exn (msg : String)
deriving Repr, DecidableEq

/-- The state a WikidataFetcher instance holds that `query` reads: the
endpoint, the base headers (only the User-Agent entry, src/client.py lines
41-46), and the 429 retry maximum.  The session object with its transient
retry strategy lives below the abstraction boundary: the loop only ever
sees final TransportResult values. -/
structure Client where
  endpoint : String
  headers : List (String × String)
  max_429_retries : Nat
deriving Repr, DecidableEq

/-- Occurrence of `pat` as a contiguous sublist, by checking a prefix match
at every suffix. -/
def hasSublist (pat : List Char) : List Char → Bool
  | [] => pat.isEmpty
  | c :: cs => pat.isPrefixOf (c :: cs) || hasSublist pat cs

/-- Python substring containment `pat in s`. -/
def pyContains (s pat : String) : Bool :=
  hasSublist pat.data s.data

/-- Python `s.lower()`, character by character. -/
def pyLower (s : String) : String :=
  ⟨s.data.map Char.toLower⟩

/-- The ValueError message of `WikidataFetcher.__init__` at src/client.py
lines 38-39 (the two adjacent string literals concatenate). -/
def bad_user_agent_msg : String :=
  "A descriptive User-Agent is required per Wikidata\x27s policy. See https://meta.wikimedia.org/wiki/User-Agent_policy"

/-- Embedding of `WikidataFetcher.__init__` (src/client.py lines 18-57).
The session, adapter and transient 5xx retry strategy configured there
(max_retries, backoff_factor, the 500/502/503/504 forcelist) are below the
abstraction boundary of this model, so those arguments are accepted and not
stored.  Construction performs no network operation: it either raises
ValueError on a missing or generic User-Agent, or returns the client
state. -/
def mkFetcher (user_agent : String) (endpoint : String) (_max_retries : Nat)
    (_backoff_factor : Rat) (max_429_retries : Nat) : Except QueryError Client :=
  if user_agent == "" || pyContains (pyLower user_agent) "python-requests" then
    .error (.valueError bad_user_agent_msg)
  else
    .ok { endpoint := endpoint
          headers := [("User-Agent", user_agent)]
          max_429_retries := max_429_retries }

/-- The format-to-MIME lookup dict at src/client.py lines 80-83; `none`
encodes absence from the dict, which line 84 turns into a ValueError. -/
def mime_types (format : String) : Option String :=
  if format == "json" then some "application/sparql-results+json"
  else if format == "csv" then some "text/csv"
  else none

/-- The ValueError message for an unsupported format (src/client.py line 85). -/
def unsupported_format_msg (format : String) : String :=
  "Unsupported format \x27" ++ format ++ "\x27. Please use \x27json\x27 or \x27csv\x27."

/-- Line 91 of src/client.py: `is_post = use_post or len(sparql) > 4000`. -/
def is_post (use_post : Bool) (sparql : String) : Bool :=
  use_post || sparql.length > 4000

/-- Surrounding-whitespace strip, as Python int() applies to its string
argument before parsing. -/
def pyStrip (cs : List Char) : List Char :=
  ((cs.dropWhile Char.isWhitespace).reverse.dropWhile Char.isWhitespace).reverse

/-- A non-empty run of decimal digits read as a number, else `none`. -/
def pyDigits (cs : List Char) : Option Nat :=
  if cs.isEmpty then none
  else if cs.all Char.isDigit then
    some (cs.foldl (fun n c => n * 10 + (c.toNat - 48)) 0)
  else none

/-- Python `int(s)` applied to a string: strip surrounding whitespace, then
an optional sign followed by decimal digits; `none` is the raised
ValueError. -/
def pyInt (s : String) : Option Int :=
  match pyStrip s.data with
  | [] => none
  | c :: cs =>
    if c = '-' then (pyDigits cs).map (fun n => -(n : Int))
    else if c = '+' then (pyDigits cs).map (fun n => (n : Int))
    else (pyDigits (c :: cs)).map (fun n => (n : Int))

/-- Line 108 of src/client.py:
`int(response.headers.get("Retry-After", 10))` — the Python integer 10 when
the header is absent (int of an int is the identity), otherwise Python int()
applied to the header string, which raises ValueError (`none` here) when the
string is not a decimal integer. -/
def retry_after_value (h : Option String) : Option Int :=
  match h with
  | none => some 10
  | some s => pyInt s

/-- Lines 100-105 of src/client.py: on `response.ok`, return
`response.json()` when the format is json, else `response.text`. -/
def decode_body (format : String) (r : Response) : QueryResult :=
  if format == "json" then .jsonResult r.body else .textResult r.body

/-- The message of the requests HTTPError that `response.raise_for_status()`
raises for a status in [400, 600); the reason phrase and URL it interpolates
are abstracted away, the status code is kept.  For a status outside
[400, 600), raise_for_status raises nothing at all. -/
def http_error_msg (status : Nat) : String :=
  toString status ++ (if status < 500 then " Client Error" else " Server Error")

/-- Line 120 of src/client.py: the RuntimeError wrapper put around every
caught requests.RequestException, HTTPError from raise_for_status
included. -/
def net_wrap (inner : String) : String :=
  "A network-level request failed after retries: " ++ inner

/-- Line 115 of src/client.py: the rate-limit-exhausted RuntimeError
message, naming the configured maximum. -/
def rate_limit_msg (max429 : Nat) : String :=
  "Maximum retries (" ++ toString max429 ++ ") exceeded for 429 responses."

/-- The ValueError message Python int() produces on a non-numeric string. -/
def int_parse_msg (s : String) : String :=
  "invalid literal for int() with base 10: \x27" ++ s ++ "\x27"

/-- The ValueError message of CPython `time.sleep` on a negative duration. -/
def neg_sleep_msg : String :=
  "sleep length must be non-negative"

/-- Result of the retry loop of `query`: the client object after the call
(threaded explicitly through every iteration, since the Python code could
mutate `self` at any step), the terminal outcome, the number of HTTP
attempts actually issued, and the list of `time.sleep` durations in
order. -/
structure LoopResult where
  client : Client
  outcome : Outcome
  attempts : Nat
  waits : List Int
deriving Repr, DecidableEq

/-- The loop `for attempt in range(self.max_429_retries + 1)` of `query`
(src/client.py lines 93-122).  `tr i` is what the transport delivers on the
i-th attempt; `remaining` counts the iterations still held by the range
computed at loop entry, so the initial call passes `max_429_retries + 1`.
Control flow per iteration, in source order: a raised RequestException is
wrapped as a RuntimeError; an ok response is decoded and returned; a 429
parses the Retry-After header (ValueError propagates), then either sleeps
and continues (negative sleep raises ValueError) or, when the attempt
counter has reached the maximum, raises the rate-limit RuntimeError; every
remaining status lies in [400, 600) and is not 429, so raise_for_status
raises, wrapped as the network RuntimeError.  An exhausted loop would be
the trailing `return None` of line 122. -/
def query_loop (format : String) (tr : Nat → TransportResult) :
    Client → Nat → Nat → Nat → List Int → LoopResult
  | c, _, 0, att, ws => ⟨c, .noneResult, att, ws⟩
  | c, attempt, remaining + 1, att, ws =>
    match tr attempt with
    | .exn msg => ⟨c, .error (.runtimeError (net_wrap msg)), att + 1, ws⟩
    | .resp r =>
      if r.ok then ⟨c, .success (decode_body format r), att + 1, ws⟩
      else if r.status == 429 then
        match retry_after_value r.retryAfter with
        | none =>
          ⟨c, .error (.valueError (int_parse_msg (r.retryAfter.getD ""))), att + 1, ws⟩
        | some ra =>
          if attempt < c.max_429_retries then
            if ra < 0 then ⟨c, .error (.valueError neg_sleep_msg), att + 1, ws⟩
            else query_loop format tr c (attempt + 1) remaining (att + 1) (ws ++ [ra])
          else
            ⟨c, .error (.runtimeError (rate_limit_msg c.max_429_retries)), att + 1, ws⟩
      else
        ⟨c, .error (.runtimeError (net_wrap (http_error_msg r.status))), att + 1, ws⟩

/-- The observable result of one call to `WikidataFetcher.query`: the loop
result together with the HTTP method and the per-request header list the
call computed before entering the loop (`none` for both when the format
check fails first, at which point neither is ever computed). -/
structure QueryRun where
  client : Client
  outcome : Outcome
  attempts : Nat
  waits : List Int
  method : Option Method
  request_headers : Option (List (String × String))
deriving Repr, DecidableEq

/-- Embedding of `WikidataFetcher.query` (src/client.py lines 59-122) run
against a simulated transport `tr`: validate the format against the MIME
dict, build the per-request headers by adding the Accept entry to the base
headers, choose the method from the hint and the query length, then run the
rate-limit retry loop. -/
def query (c : Client) (sparql : String) (use_post : Bool) (format : String)
    (tr : Nat → TransportResult) : QueryRun :=
  match mime_types format with
  | none =>
    ⟨c, .error (.valueError (unsupported_format_msg format)), 0, [], none, none⟩
  | some mime =>
    let hs := c.headers ++ [("Accept", mime)]
    let m : Method := if is_post use_post sparql then .post else .get
    let lr := query_loop format tr c 0 (c.max_429_retries + 1) 0 []
    ⟨lr.client, lr.outcome, lr.attempts, lr.waits, some m, some hs⟩

/-- The network-failure kind of outcome: a RuntimeError whose message starts
with the wrapper of src/client.py line 120.  Connection errors, timeouts and
exhausted transient retries all surface with exactly this shape. -/
def network_kind : Outcome → Bool
  | .error (.runtimeError m) =>
    "A network-level request failed after retries: ".data.isPrefixOf m.data
  | _ => false

/-- The ok test in arithmetic form: the status lies outside the [400, 600)
window in which raise_for_status raises. -/
theorem Response.ok_iff (r : Response) :
    r.ok = true ↔ (r.status < 400 ∨ 600 ≤ r.status) := by
  simp [Response.ok]

/-! Step equations for one iteration of the retry loop, one per control-flow
branch of src/client.py lines 94-120. -/

theorem query_loop_step_exn (format : String) (tr : Nat → TransportResult)
    (c : Client) (attempt k att : Nat) (ws : List Int) (msg : String)
    (h : tr attempt = .exn msg) :
    query_loop format tr c attempt (k + 1) att ws
      = ⟨c, .error (.runtimeError (net_wrap msg)), att + 1, ws⟩ := by
  simp only [query_loop, h]

theorem query_loop_step_ok (format : String) (tr : Nat → TransportResult)
    (c : Client) (attempt k att : Nat) (ws : List Int) (r : Response)
    (h : tr attempt = .resp r) (hok : r.ok = true) :
    query_loop format tr c attempt (k + 1) att ws
      = ⟨c, .success (decode_body format r), att + 1, ws⟩ := by
  simp only [query_loop, h, hok, if_true]

theorem query_loop_step_429_continue (format : String) (tr : Nat → TransportResult)
    (c : Client) (attempt k att : Nat) (ws : List Int) (hd : Option String)
    (b : String) (ra : Int)
    (h : tr attempt = .resp ⟨429, hd, b⟩) (hra : retry_after_value hd = some ra)
    (hnn : 0 ≤ ra) (hlt : attempt < c.max_429_retries) :
    query_loop format tr c attempt (k + 1) att ws
      = query_loop format tr c (attempt + 1) k (att + 1) (ws ++ [ra]) := by
  have hns : ¬ (ra < 0) := by omega
  simp only [query_loop, h, hra, Response.ok]
  simp [hlt, hns]

theorem query_loop_step_429_exhaust (format : String) (tr : Nat → TransportResult)
    (c : Client) (attempt k att : Nat) (ws : List Int) (hd : Option String)
    (b : String) (ra : Int)
    (h : tr attempt = .resp ⟨429, hd, b⟩) (hra : retry_after_value hd = some ra)
    (hge : c.max_429_retries ≤ attempt) :
    query_loop format tr c attempt (k + 1) att ws
      = ⟨c, .error (.runtimeError (rate_limit_msg c.max_429_retries)), att + 1, ws⟩ := by
  have hns : ¬ (attempt < c.max_429_retries) := by omega
  simp only [query_loop, h, hra, Response.ok]
  simp [hns]

theorem query_loop_step_429_badheader (format : String) (tr : Nat → TransportResult)
    (c : Client) (attempt k att : Nat) (ws : List Int) (s b : String)
    (h : tr attempt = .resp ⟨429, some s, b⟩) (hs : pyInt s = none) :
    query_loop format tr c attempt (k + 1) att ws
      = ⟨c, .error (.valueError (int_parse_msg s)), att + 1, ws⟩ := by
  have hra : retry_after_value (some s) = none := hs
  simp only [query_loop, h, hra, Response.ok]
  simp

theorem query_loop_step_http (format : String) (tr : Nat → TransportResult)
    (c : Client) (attempt k att : Nat) (ws : List Int) (r : Response)
    (h : tr attempt = .resp r) (h4 : 400 ≤ r.status) (h6 : r.status < 600)
    (hne : r.status ≠ 429) :
    query_loop format tr c attempt (k + 1) att ws
      = ⟨c, .error (.runtimeError (net_wrap (http_error_msg r.status))), att + 1, ws⟩ := by
  have hb : r.ok = false := by simp [Response.ok]; omega
  have hbe : (r.status == 429) = false := by simp [hne]
  simp only [query_loop, h, hb, hbe, Bool.false_eq_true, if_false]

/-! Structural facts about the whole loop, proved by induction on the number
of remaining iterations. -/

/-- The loop never writes to the client object: the threaded state comes out
exactly as it went in (the Python loop body contains no assignment to
`self`). -/
theorem query_loop_client_eq (format : String) (tr : Nat → TransportResult) :
    ∀ remaining c attempt att ws,
      (query_loop format tr c attempt remaining att ws).client = c := by
  intro remaining
  induction remaining with
  | zero => intro c attempt att ws; rfl
  | succ k ih =>
    intro c attempt att ws
    simp only [query_loop]
    split
    · rfl
    · split
      · rfl
      · split
        · split
          · rfl
          · split
            · split
              · rfl
              · exact ih c (attempt + 1) (att + 1) _
            · rfl
        · rfl

/-- The loop issues at most one HTTP attempt per remaining iteration. -/
theorem query_loop_attempts_le (format : String) (tr : Nat → TransportResult) :
    ∀ remaining c attempt att ws,
      (query_loop format tr c attempt remaining att ws).attempts ≤ att + remaining := by
  intro remaining
  induction remaining with
  | zero => intro c attempt att ws; exact Nat.le_refl att
  | succ k ih =>
    intro c attempt att ws
    simp only [query_loop]
    split
    · show att + 1 ≤ att + (k + 1); omega
    · split
      · show att + 1 ≤ att + (k + 1); omega
      · split
        · split
          · show att + 1 ≤ att + (k + 1); omega
          · split
            · split
              · show att + 1 ≤ att + (k + 1); omega
              · rename_i ra hra hlt hns
                have := ih c (attempt + 1) (att + 1) (ws ++ [ra])
                omega
            · show att + 1 ≤ att + (k + 1); omega
        · show att + 1 ≤ att + (k + 1); omega

/-- A successful outcome of the loop is always a decoded response body. -/
theorem query_loop_success_shape (format : String) (tr : Nat → TransportResult) :
    ∀ remaining c attempt att ws q,
      (query_loop format tr c attempt remaining att ws).outcome = .success q →
      ∃ r, q = decode_body format r := by
  intro remaining
  induction remaining with
  | zero => intro c attempt att ws q h; exact absurd h (by simp [query_loop])
  | succ k ih =>
    intro c attempt att ws q h
    simp only [query_loop] at h
    revert h
    split
    · intro h; exact absurd h (by simp)
    · split
      · intro h
        simp only [Outcome.success.injEq] at h
        exact ⟨_, h.symm⟩
      · split
        · split
          · intro h; exact absurd h (by simp)
          · split
            · split
              · intro h; exact absurd h (by simp)
              · intro h; exact ih c (attempt + 1) (att + 1) _ q h
            · intro h; exact absurd h (by simp)
        · intro h; exact absurd h (by simp)

/-- The accumulated wait list only ever grows at the tail. -/
theorem query_loop_waits_extend (format : String) (tr : Nat → TransportResult) :
    ∀ remaining c attempt att ws,
      ∃ rest, (query_loop format tr c attempt remaining att ws).waits = ws ++ rest := by
  intro remaining
  induction remaining with
  | zero => intro c attempt att ws; exact ⟨[], by simp [query_loop]⟩
  | succ k ih =>
    intro c attempt att ws
    simp only [query_loop]
    split
    · exact ⟨[], by simp⟩
    · split
      · exact ⟨[], by simp⟩
      · split
        · split
          · exact ⟨[], by simp⟩
          · split
            · split
              · exact ⟨[], by simp⟩
              · rename_i ra hra hlt hns
                obtain ⟨rest, hrest⟩ := ih c (attempt + 1) (att + 1) (ws ++ [ra])
                exact ⟨ra :: rest, by rw [hrest]; simp⟩
            · exact ⟨[], by simp⟩
        · exact ⟨[], by simp⟩

/-- When every attempt meets a 429 whose Retry-After value parses to a
non-negative integer, the loop consumes its whole budget and ends with the
rate-limit RuntimeError, having issued one HTTP attempt per iteration. -/
theorem query_loop_429_exhaust (format : String) (tr : Nat → TransportResult)
    (h429 : ∀ i, ∃ hd b, tr i = .resp ⟨429, hd, b⟩
      ∧ ∃ ra, retry_after_value hd = some ra ∧ 0 ≤ ra) :
    ∀ remaining, 1 ≤ remaining → ∀ c attempt att ws,
      attempt + remaining = c.max_429_retries + 1 →
      (query_loop format tr c attempt remaining att ws).outcome
          = .error (.runtimeError (rate_limit_msg c.max_429_retries))
        ∧ (query_loop format tr c attempt remaining att ws).attempts
          = att + remaining := by
  intro remaining
  induction remaining with
  | zero => intro h; omega
  | succ k ih =>
    intro _ c attempt att ws hinv
    obtain ⟨hd, b, htr, ra, hra, hnn⟩ := h429 attempt
    by_cases hk : k = 0
    · subst hk
      have hge : c.max_429_retries ≤ attempt := by omega
      rw [query_loop_step_429_exhaust format tr c attempt 0 att ws hd b ra htr hra hge]
      exact ⟨rfl, rfl⟩
    · have hlt : attempt < c.max_429_retries := by omega
      rw [query_loop_step_429_continue format tr c attempt k att ws hd b ra htr hra hnn hlt]
      have h1k : 1 ≤ k := by omega
      have hinv2 : (attempt + 1) + k = c.max_429_retries + 1 := by omega
      obtain ⟨ho, ha⟩ := ih h1k c (attempt + 1) (att + 1) (ws ++ [ra]) hinv2
      exact ⟨ho, by omega⟩

/-- The loop cannot run off the end of its range: on every iteration some
branch of the body terminates the call or continues with at least one
iteration left (every response is consumed by the ok test, the 429 branch,
or raise_for_status), so the trailing return of None is never reached from
the initial call. -/
theorem query_loop_ne_none (format : String) (tr : Nat → TransportResult) :
    ∀ remaining, 1 ≤ remaining → ∀ c attempt att ws,
      attempt + remaining = c.max_429_retries + 1 →
      (query_loop format tr c attempt remaining att ws).outcome ≠ .noneResult := by
  intro remaining
  induction remaining with
  | zero => intro h; omega
  | succ k ih =>
    intro _ c attempt att ws hinv
    cases htr : tr attempt with
    | exn msg =>
      rw [query_loop_step_exn format tr c attempt k att ws msg htr]
      simp
    | resp r =>
      by_cases hok : r.ok = true
      · rw [query_loop_step_ok format tr c attempt k att ws r htr hok]
        simp
      · have hwin : 400 ≤ r.status ∧ r.status < 600 := by
          simp only [Response.ok_iff] at hok
          omega
        by_cases h429 : r.status = 429
        · obtain ⟨st, hd, b⟩ := r
          simp only at h429
          subst h429
          cases hra : retry_after_value hd with
          | none =>
            cases hd with
            | none => exact absurd hra (by simp [retry_after_value])
            | some s =>
              rw [query_loop_step_429_badheader format tr c attempt k att ws s b htr hra]
              simp
          | some ra =>
            by_cases hlt : attempt < c.max_429_retries
            · have h1k : 1 ≤ k := by omega
              by_cases hnn : 0 ≤ ra
              · rw [query_loop_step_429_continue format tr c attempt k att ws hd b ra htr hra hnn hlt]
                exact ih h1k c (attempt + 1) (att + 1) (ws ++ [ra]) (by omega)
              · have hns : ra < 0 := by omega
                simp only [query_loop, htr, hra, Response.ok]
                simp [hlt, hns]
            · rw [query_loop_step_429_exhaust format tr c attempt k att ws hd b ra htr hra (by omega)]
              simp
        · rw [query_loop_step_http format tr c attempt k att ws r htr hwin.1 hwin.2 h429]
          simp

theorem isPrefixOf_self_append (l r : List Char) : l.isPrefixOf (l ++ r) = true := by
  induction l with
  | nil => cases r <;> rfl
  | cons c cs ih => simp [List.isPrefixOf, ih]

theorem hasSublist_self_append (pat rest : List Char) :
    hasSublist pat (pat ++ rest) = true := by
  cases pat with
  | nil =>
    cases rest with
    | nil => rfl
    | cons c cs => simp [hasSublist]
  | cons c cs => simp [hasSublist, isPrefixOf_self_append]

/-- A string occurs as a Python substring of anything it starts. -/
theorem pyContains_self_append (a b : String) : pyContains (a ++ b) a = true := by
  show hasSublist a.data (a ++ b).data = true
  have hd : (a ++ b).data = a.data ++ b.data := by
    cases a; cases b; rfl
  rw [hd]
  exact hasSublist_self_append a.data b.data

/-- The network wrapper message is of the network-failure kind. -/
theorem network_kind_net_wrap (inner : String) :
    network_kind (.error (.runtimeError (net_wrap inner))) = true := by
  show ("A network-level request failed after retries: ".data).isPrefixOf
      (net_wrap inner).data = true
  have hd : (net_wrap inner).data
      = "A network-level request failed after retries: ".data ++ inner.data := by
    cases inner; rfl
  rw [hd]
  exact isPrefixOf_self_append _ _

/-- Claim C1 counterexample: the claim as frozen fails when a 429 carries an
unparsable Retry-After value.  With max_429_retries = 2 and every attempt
answering 429 with Retry-After "later", the call does not fail with the
rate-limit-exhausted error after 3 attempts: Python int() raises an
uncaught ValueError on the very first attempt (src/client.py line 108), so
exactly one attempt is made and the outcome is not the rate-limit error. -/
theorem claim_c1_counterexample :
    (query ⟨"e", [], 2⟩ "q" false "json"
        (fun _ => .resp ⟨429, some "later", ""⟩)).attempts = 1
    ∧ (query ⟨"e", [], 2⟩ "q" false "json"
        (fun _ => .resp ⟨429, some "later", ""⟩)).outcome
        = .error (.valueError (int_parse_msg "later"))
    ∧ (query ⟨"e", [], 2⟩ "q" false "json"
        (fun _ => .resp ⟨429, some "later", ""⟩)).outcome
        ≠ .error (.runtimeError (rate_limit_msg 2)) := by
  refine ⟨by decide, by decide, by decide⟩

/-- Claim C1 amended: the outer rate-limit loop issues at most
max_429_retries + 1 total HTTP attempts for every call; if every attempt
receives a 429 response whose Retry-After value is absent or parses to a
non-negative integer, the call fails with the rate-limit-exhausted
RuntimeError whose message names the configured maximum, after exactly
max_429_retries + 1 attempts; and with max_429_retries = 0 exactly one
attempt is made, the 429 is immediately terminal, and no wait occurs.  (A
429 whose Retry-After is present but unparsable instead raises an uncaught
ValueError at once, after a single attempt — see the counterexample.) -/
theorem claim_c1_rate_limit_budget
    (c : Client) (sparql : String) (up : Bool) (format2 : String)
    (tr tr2 : Nat → TransportResult)
    (h429 : ∀ i, ∃ hd b, tr i = .resp ⟨429, hd, b⟩
      ∧ ∃ ra, retry_after_value hd = some ra ∧ 0 ≤ ra) :
    (query c sparql up format2 tr2).attempts ≤ c.max_429_retries + 1
    ∧ (query c sparql up "json" tr).outcome
        = .error (.runtimeError (rate_limit_msg c.max_429_retries))
    ∧ (query c sparql up "json" tr).attempts = c.max_429_retries + 1
    ∧ (c.max_429_retries = 0 →
        (query c sparql up "json" tr).attempts = 1
        ∧ (query c sparql up "json" tr).waits = []) := by
  have hbound : (query c sparql up format2 tr2).attempts ≤ c.max_429_retries + 1 := by
    cases hm : mime_types format2 with
    | none => simp [query, hm]
    | some mime =>
      simp only [query, hm]
      have := query_loop_attempts_le format2 tr2 (c.max_429_retries + 1) c 0 0 []
      omega
  have hmj : mime_types "json" = some "application/sparql-results+json" := rfl
  have hrun := query_loop_429_exhaust "json" tr h429 (c.max_429_retries + 1)
    (by omega) c 0 0 [] (by omega)
  refine ⟨hbound, ?_, ?_, ?_⟩
  · simp only [query, hmj]
    exact hrun.1
  · simp only [query, hmj]
    rw [hrun.2]
    omega
  · intro h0
    obtain ⟨hd, b, htr, ra, hra, hnn⟩ := h429 0
    constructor
    · simp only [query, hmj]
      rw [hrun.2]
      omega
    · simp only [query, hmj, h0]
      rw [query_loop_step_429_exhaust "json" tr c 0 0 0 [] hd b ra htr hra (by omega)]

/-- Claim C1 witness: with max_429_retries = 3 and a transport that answers
429 (no Retry-After header) on every attempt, the call ends with the
rate-limit RuntimeError naming 3, after exactly 4 attempts; and with
max_429_retries = 0 a single attempt is made and the 429 is immediately
fatal with no wait. -/
theorem claim_c1_rate_limit_budget_witness :
    (query ⟨"e", [], 3⟩ "q" false "json" (fun _ => .resp ⟨429, none, ""⟩)).outcome
        = .error (.runtimeError (rate_limit_msg 3))
    ∧ (query ⟨"e", [], 3⟩ "q" false "json" (fun _ => .resp ⟨429, none, ""⟩)).attempts = 4
    ∧ (query ⟨"e", [], 0⟩ "q" false "json" (fun _ => .resp ⟨429, none, ""⟩)).attempts = 1
    ∧ (query ⟨"e", [], 0⟩ "q" false "json" (fun _ => .resp ⟨429, none, ""⟩)).waits = [] := by
  have h3 := claim_c1_rate_limit_budget ⟨"e", [], 3⟩ "q" false "json"
    (fun _ => .resp ⟨429, none, ""⟩) (fun _ => .resp ⟨429, none, ""⟩)
    (fun _ => ⟨none, "", rfl, 10, rfl, by omega⟩)
  have h0 := claim_c1_rate_limit_budget ⟨"e", [], 0⟩ "q" false "json"
    (fun _ => .resp ⟨429, none, ""⟩) (fun _ => .resp ⟨429, none, ""⟩)
    (fun _ => ⟨none, "", rfl, 10, rfl, by omega⟩)
  exact ⟨h3.2.1, h3.2.2.1, (h0.2.2.2 rfl).1, (h0.2.2.2 rfl).2⟩

/-- Claim C2 counterexample: a 429 response whose Retry-After header reads
"soon" (present but not parsable as an integer) does not lead to a wait of
10 and a further attempt, as the claim states; Python int() raises an
uncaught ValueError instead, so the call dies after one attempt with no
wait at all. -/
theorem claim_c2_counterexample :
    (query ⟨"e", [], 3⟩ "q" false "json" (fun _ => .resp ⟨429, some "soon", ""⟩)).outcome
        = .error (.valueError (int_parse_msg "soon"))
    ∧ (query ⟨"e", [], 3⟩ "q" false "json" (fun _ => .resp ⟨429, some "soon", ""⟩)).waits = []
    ∧ (query ⟨"e", [], 3⟩ "q" false "json" (fun _ => .resp ⟨429, some "soon", ""⟩)).attempts = 1
    ∧ (query ⟨"e", [], 3⟩ "q" false "json"
        (fun _ => .resp ⟨429, some "soon", ""⟩)).waits.head? ≠ some 10 := by
  refine ⟨by decide, by decide, by decide, by decide⟩

/-- Claim C2 amended: on a 429 response, an absent Retry-After header leads
to a wait of 10 time units before the next attempt, and a header parsing as
a non-negative integer k to a wait of k; but a present, unparsable header
does not default to 10 — Python int() raises an uncaught ValueError and the
call terminates after that single attempt with no wait. -/
theorem claim_c2_retry_after_amended
    (c : Client) (sparql : String) (up : Bool) (tr : Nat → TransportResult)
    (hd : Option String) (b : String)
    (hmax : 1 ≤ c.max_429_retries) (h0 : tr 0 = .resp ⟨429, hd, b⟩) :
    (hd = none → (query c sparql up "json" tr).waits.head? = some 10)
    ∧ (∀ s k, hd = some s → pyInt s = some k → 0 ≤ k →
        (query c sparql up "json" tr).waits.head? = some k)
    ∧ (∀ s, hd = some s → pyInt s = none →
        (query c sparql up "json" tr).outcome = .error (.valueError (int_parse_msg s))
        ∧ (query c sparql up "json" tr).waits = []
        ∧ (query c sparql up "json" tr).attempts = 1) := by
  have hmj : mime_types "json" = some "application/sparql-results+json" := rfl
  refine ⟨?_, ?_, ?_⟩
  · intro hnone
    subst hnone
    simp only [query, hmj]
    rw [query_loop_step_429_continue "json" tr c 0 c.max_429_retries 0 [] none b 10
      h0 rfl (by omega) (by omega)]
    simp only [Nat.zero_add, List.nil_append]
    obtain ⟨rest, hrest⟩ := query_loop_waits_extend "json" tr c.max_429_retries c 1 1 [10]
    rw [hrest]
    rfl
  · intro s k hs hk hnn
    subst hs
    simp only [query, hmj]
    rw [query_loop_step_429_continue "json" tr c 0 c.max_429_retries 0 [] (some s) b k
      h0 hk hnn (by omega)]
    simp only [Nat.zero_add, List.nil_append]
    obtain ⟨rest, hrest⟩ := query_loop_waits_extend "json" tr c.max_429_retries c 1 1 [k]
    rw [hrest]
    rfl
  · intro s hs hnone
    subst hs
    simp only [query, hmj]
    rw [query_loop_step_429_badheader "json" tr c 0 c.max_429_retries 0 [] s b h0 hnone]
    exact ⟨rfl, rfl, rfl⟩

/-- Claim C2 amended witness: with the header absent the first wait is 10;
with header "2" it is 2; with header "soon" the call raises ValueError after
one attempt. -/
theorem claim_c2_retry_after_amended_witness :
    (query ⟨"e", [], 3⟩ "q" false "json" (fun _ => .resp ⟨429, none, ""⟩)).waits.head?
        = some 10
    ∧ (query ⟨"e", [], 3⟩ "q" false "json" (fun _ => .resp ⟨429, some "2", ""⟩)).waits.head?
        = some 2
    ∧ (query ⟨"e", [], 3⟩ "q" false "json" (fun _ => .resp ⟨429, some "soon", ""⟩)).attempts
        = 1 := by
  have ha := claim_c2_retry_after_amended ⟨"e", [], 3⟩ "q" false
    (fun _ => .resp ⟨429, none, ""⟩) none "" (by decide) rfl
  have hb := claim_c2_retry_after_amended ⟨"e", [], 3⟩ "q" false
    (fun _ => .resp ⟨429, some "2", ""⟩) (some "2") "" (by decide) rfl
  have hc := claim_c2_retry_after_amended ⟨"e", [], 3⟩ "q" false
    (fun _ => .resp ⟨429, some "soon", ""⟩) (some "soon") "" (by decide) rfl
  exact ⟨ha.1 rfl, hb.2.1 "2" 2 rfl (by decide) (by omega),
    (hc.2.2 "soon" rfl (by decide)).2.2⟩

/-- Claim C3 counterexample: a 404 response does not terminate the call
with a failure kind distinct from the network-failure kind.  The HTTPError
from raise_for_status is caught by the same `except requests.RequestException`
clause as connection errors and re-raised as the identical RuntimeError
wrapper, so the 404 outcome is itself of the network-failure kind, exactly
like a connection failure. -/
theorem claim_c3_counterexample :
    network_kind (query ⟨"e", [], 3⟩ "q" false "json"
        (fun _ => .resp ⟨404, none, ""⟩)).outcome = true
    ∧ network_kind (query ⟨"e", [], 3⟩ "q" false "json"
        (fun _ => .exn "connection refused")).outcome = true
    ∧ (query ⟨"e", [], 3⟩ "q" false "json" (fun _ => .resp ⟨404, none, ""⟩)).outcome
        = .error (.runtimeError (net_wrap (http_error_msg 404))) := by
  refine ⟨by decide, by decide, by decide⟩

/-- Claim C3 amended: a response with a non-2xx, non-429, non-transient
status in [400, 600) terminates the call after that single attempt with a
RuntimeError whose message contains the status code — but this failure is
raised through the same network-failure wrapper used for connection errors
and exhausted transient retries, not as a distinct failure kind. -/
theorem claim_c3_http_status_amended
    (c : Client) (sparql : String) (up : Bool) (tr : Nat → TransportResult) (r : Response)
    (h0 : tr 0 = .resp r) (h4 : 400 ≤ r.status) (h6 : r.status < 600)
    (hne : r.status ≠ 429) (_htrans : r.status ∉ ([500, 502, 503, 504] : List Nat)) :
    (query c sparql up "json" tr).outcome
        = .error (.runtimeError (net_wrap (http_error_msg r.status)))
    ∧ (query c sparql up "json" tr).attempts = 1
    ∧ pyContains (http_error_msg r.status) (toString r.status) = true
    ∧ network_kind (query c sparql up "json" tr).outcome = true := by
  have hmj : mime_types "json" = some "application/sparql-results+json" := rfl
  have hstep := query_loop_step_http "json" tr c 0 c.max_429_retries 0 [] r h0 h4 h6 hne
  refine ⟨?_, ?_, ?_, ?_⟩
  · simp only [query, hmj]
    rw [hstep]
  · simp only [query, hmj]
    rw [hstep]
  · exact pyContains_self_append (toString r.status)
      (if r.status < 500 then " Client Error" else " Server Error")
  · simp only [query, hmj]
    rw [hstep]
    exact network_kind_net_wrap (http_error_msg r.status)

/-- Claim C3 amended witness: a 404 on the first attempt ends the call at
once with the wrapped status failure, whose message carries "404" and which
is of the network-failure kind. -/
theorem claim_c3_http_status_amended_witness :
    (query ⟨"e", [], 3⟩ "q" false "json" (fun _ => .resp ⟨404, none, "x"⟩)).outcome
        = .error (.runtimeError (net_wrap (http_error_msg 404)))
    ∧ (query ⟨"e", [], 3⟩ "q" false "json" (fun _ => .resp ⟨404, none, "x"⟩)).attempts = 1
    ∧ pyContains (http_error_msg 404) (toString 404) = true := by
  have h := claim_c3_http_status_amended ⟨"e", [], 3⟩ "q" false
    (fun _ => .resp ⟨404, none, "x"⟩) ⟨404, none, "x"⟩ rfl (by decide) (by decide)
    (by decide) (by decide)
  exact ⟨h.1, h.2.1, h.2.2.1⟩

/-- Claim C4: on the response sequence 429 (Retry-After 2), 429
(Retry-After 2), then any 2xx, with rate-limit maximum 3 and any supported
format, the call returns the decoded success result after exactly two waits
of 2 time units each and exactly three HTTP attempts. -/
theorem claim_c4_retry_then_success
    (c : Client) (sparql : String) (up : Bool) (format m : String)
    (tr : Nat → TransportResult) (b0 b1 b2 : String) (hd2 : Option String) (st : Nat)
    (hmax : c.max_429_retries = 3) (hm : mime_types format = some m)
    (h0 : tr 0 = .resp ⟨429, some "2", b0⟩) (h1 : tr 1 = .resp ⟨429, some "2", b1⟩)
    (h2 : tr 2 = .resp ⟨st, hd2, b2⟩) (hlo : 200 ≤ st) (hhi : st < 300) :
    (query c sparql up format tr).outcome = .success (decode_body format ⟨st, hd2, b2⟩)
    ∧ (query c sparql up format tr).attempts = 3
    ∧ (query c sparql up format tr).waits = [2, 2] := by
  have hra : retry_after_value (some "2") = some 2 := by decide
  have hok : (⟨st, hd2, b2⟩ : Response).ok = true := by
    rw [Response.ok_iff]
    left
    show st < 400
    omega
  have e0 : query_loop format tr c 0 (c.max_429_retries + 1) 0 []
      = query_loop format tr c 1 c.max_429_retries 1 [2] := by
    have := query_loop_step_429_continue format tr c 0 c.max_429_retries 0 []
      (some "2") b0 2 h0 hra (by omega) (by omega)
    simpa using this
  have e1 : query_loop format tr c 1 c.max_429_retries 1 [2]
      = query_loop format tr c 2 2 2 [2, 2] := by
    rw [hmax]
    have := query_loop_step_429_continue format tr c 1 2 1 [2]
      (some "2") b1 2 h1 hra (by omega) (by omega)
    simpa using this
  have e2 : query_loop format tr c 2 2 2 [2, 2]
      = ⟨c, .success (decode_body format ⟨st, hd2, b2⟩), 3, [2, 2]⟩ := by
    have := query_loop_step_ok format tr c 2 1 2 [2, 2] ⟨st, hd2, b2⟩ h2 hok
    simpa using this
  simp only [query, hm]
  rw [e0, e1, e2]
  exact ⟨rfl, rfl, rfl⟩

/-- Claim C4 witness: the concrete sequence 429/2, 429/2, 200 with maximum 3
yields the decoded json success after three attempts and waits [2, 2]. -/
theorem claim_c4_retry_then_success_witness :
    (query ⟨"e", [], 3⟩ "q" false "json"
        (fun n => if n < 2 then .resp ⟨429, some "2", ""⟩ else .resp ⟨200, none, "body"⟩)).outcome
      = .success (.jsonResult "body")
    ∧ (query ⟨"e", [], 3⟩ "q" false "json"
        (fun n => if n < 2 then .resp ⟨429, some "2", ""⟩ else .resp ⟨200, none, "body"⟩)).attempts
      = 3
    ∧ (query ⟨"e", [], 3⟩ "q" false "json"
        (fun n => if n < 2 then .resp ⟨429, some "2", ""⟩ else .resp ⟨200, none, "body"⟩)).waits
      = [2, 2] := by
  have h := claim_c4_retry_then_success ⟨"e", [], 3⟩ "q" false "json"
    "application/sparql-results+json"
    (fun n => if n < 2 then .resp ⟨429, some "2", ""⟩ else .resp ⟨200, none, "body"⟩)
    "" "" "body" none 200 rfl rfl rfl rfl rfl (by omega) (by omega)
  exact ⟨h.1, h.2.1, h.2.2⟩

/-- Claim C5: for every supported call, the chosen HTTP method is POST
exactly when the hint forces POST or the query text is longer than 4000
characters, GET otherwise; and the choice depends only on the hint and the
text length — it is unchanged under replacing the client, the transport,
the format, or the query text by one of equal length. -/
theorem claim_c5_method_selection
    (c c2 : Client) (sparql sparql2 : String) (up : Bool) (format format2 m m2 : String)
    (tr tr2 : Nat → TransportResult)
    (hm : mime_types format = some m) (hm2 : mime_types format2 = some m2)
    (hlen : sparql.length = sparql2.length) :
    ((query c sparql up format tr).method = some .post
        ↔ (up = true ∨ 4000 < sparql.length))
    ∧ ((query c sparql up format tr).method = some .get
        ↔ ¬(up = true ∨ 4000 < sparql.length))
    ∧ (query c sparql up format tr).method = (query c2 sparql2 up format2 tr2).method := by
  have hq : (query c sparql up format tr).method
      = some (if is_post up sparql then .post else .get) := by
    simp only [query, hm]
  have hq2 : (query c2 sparql2 up format2 tr2).method
      = some (if is_post up sparql2 then .post else .get) := by
    simp only [query, hm2]
  refine ⟨?_, ?_, ?_⟩
  · rw [hq]
    cases up with
    | true => simp [is_post]
    | false =>
      by_cases h4 : 4000 < sparql.length
      · simp [is_post, h4]
      · simp [is_post, h4]
  · rw [hq]
    cases up with
    | true => simp [is_post]
    | false =>
      by_cases h4 : 4000 < sparql.length
      · simp [is_post, h4]
      · simp [is_post, h4]
  · rw [hq, hq2]
    simp only [is_post, hlen]

/-- Claim C5 witness: a short query with no hint goes over GET, with the
forced hint over POST. -/
theorem claim_c5_method_selection_witness :
    (query ⟨"e", [], 3⟩ "q" false "json" (fun _ => .resp ⟨200, none, ""⟩)).method
        = some .get
    ∧ (query ⟨"e", [], 3⟩ "q" true "json" (fun _ => .resp ⟨200, none, ""⟩)).method
        = some .post := by
  have h1 := claim_c5_method_selection ⟨"e", [], 3⟩ ⟨"e", [], 3⟩ "q" "q" false
    "json" "json" "application/sparql-results+json" "application/sparql-results+json"
    (fun _ => .resp ⟨200, none, ""⟩) (fun _ => .resp ⟨200, none, ""⟩) rfl rfl rfl
  have h2 := claim_c5_method_selection ⟨"e", [], 3⟩ ⟨"e", [], 3⟩ "q" "q" true
    "json" "json" "application/sparql-results+json" "application/sparql-results+json"
    (fun _ => .resp ⟨200, none, ""⟩) (fun _ => .resp ⟨200, none, ""⟩) rfl rfl rfl
  exact ⟨h1.2.1.mpr (by decide), h2.1.mpr (Or.inl rfl)⟩

/-- Claim C6: construction fails exactly for an identity string that is
empty or contains (case-insensitively) the generic library identifier
python-requests; every other identity string yields a constructed client
holding that identity, with no network interaction modelled or performed. -/
theorem claim_c6_user_agent_validation
    (user_agent endpoint : String) (mr : Nat) (bf : Rat) (m429 : Nat) :
    ((∃ cl, mkFetcher user_agent endpoint mr bf m429 = .ok cl)
        ↔ ¬(user_agent = ""
            ∨ pyContains (pyLower user_agent) "python-requests" = true))
    ∧ (¬(user_agent = ""
          ∨ pyContains (pyLower user_agent) "python-requests" = true) →
        mkFetcher user_agent endpoint mr bf m429
          = .ok ⟨endpoint, [("User-Agent", user_agent)], m429⟩)
    ∧ ((user_agent = ""
          ∨ pyContains (pyLower user_agent) "python-requests" = true) →
        mkFetcher user_agent endpoint mr bf m429
          = .error (.valueError bad_user_agent_msg)) := by
  by_cases h : user_agent = "" ∨ pyContains (pyLower user_agent) "python-requests" = true
  · have hb : (user_agent == ""
        || pyContains (pyLower user_agent) "python-requests") = true := by
      rcases h with h | h
      · simp [h]
      · simp [h]
    have hmk : mkFetcher user_agent endpoint mr bf m429
        = .error (.valueError bad_user_agent_msg) := by
      simp [mkFetcher, hb]
    refine ⟨?_, fun hn => absurd h hn, fun _ => hmk⟩
    constructor
    · rintro ⟨cl, hcl⟩
      rw [hmk] at hcl
      exact absurd hcl (by simp)
    · intro hn
      exact absurd h hn
  · have h1 : user_agent ≠ "" := fun he => h (Or.inl he)
    have h2 : pyContains (pyLower user_agent) "python-requests" ≠ true :=
      fun he => h (Or.inr he)
    have hb : (user_agent == ""
        || pyContains (pyLower user_agent) "python-requests") = false := by
      rw [Bool.or_eq_false_iff]
      exact ⟨beq_eq_false_iff_ne.mpr h1, Bool.eq_false_iff.mpr h2⟩
    have hmk : mkFetcher user_agent endpoint mr bf m429
        = .ok ⟨endpoint, [("User-Agent", user_agent)], m429⟩ := by
      simp [mkFetcher, hb]
    exact ⟨⟨fun _ => h, fun _ => ⟨_, hmk⟩⟩, fun _ => hmk, fun hc => absurd hc h⟩

/-- Claim C6 witness: a descriptive identity constructs successfully, while
the empty string and a string containing Python-Requests (any case) are
rejected with the configuration ValueError. -/
theorem claim_c6_user_agent_validation_witness :
    (∃ cl, mkFetcher "WikidataFetcher/1.0 (wikidata.fetcher@mail.com)" "e" 5 1 3 = .ok cl)
    ∧ mkFetcher "" "e" 5 1 3 = .error (.valueError bad_user_agent_msg)
    ∧ mkFetcher "uses Python-Requests/2.28" "e" 5 1 3
        = .error (.valueError bad_user_agent_msg) := by
  have hgood := claim_c6_user_agent_validation
    "WikidataFetcher/1.0 (wikidata.fetcher@mail.com)" "e" 5 1 3
  have hempty := claim_c6_user_agent_validation "" "e" 5 1 3
  have hgen := claim_c6_user_agent_validation "uses Python-Requests/2.28" "e" 5 1 3
  exact ⟨hgood.1.mpr (by decide), hempty.2.2 (Or.inl rfl), hgen.2.2 (Or.inr (by decide))⟩

/-- Claim C7: a format selector outside the closed set of json and csv makes
the call fail immediately with the unsupported-format ValueError, before any
HTTP attempt, any wait, or any request-header computation; for the two
supported selectors the per-request headers extend the base headers with the
fixed Accept MIME type. -/
theorem claim_c7_format_validation
    (c : Client) (sparql : String) (up : Bool) (format : String)
    (tr : Nat → TransportResult) :
    (mime_types format = none →
        (query c sparql up format tr).attempts = 0
        ∧ (query c sparql up format tr).outcome
            = .error (.valueError (unsupported_format_msg format))
        ∧ (query c sparql up format tr).request_headers = none
        ∧ (query c sparql up format tr).waits = [])
    ∧ ((mime_types format).isSome ↔ (format = "json" ∨ format = "csv"))
    ∧ (query c sparql up "json" tr).request_headers
        = some (c.headers ++ [("Accept", "application/sparql-results+json")])
    ∧ (query c sparql up "csv" tr).request_headers
        = some (c.headers ++ [("Accept", "text/csv")]) := by
  have hmj : mime_types "json" = some "application/sparql-results+json" := rfl
  have hmc : mime_types "csv" = some "text/csv" := rfl
  refine ⟨?_, ?_, ?_, ?_⟩
  · intro hm
    simp [query, hm]
  · by_cases hj : format = "json"
    · simp [mime_types, hj]
    · by_cases hc : format = "csv"
      · simp [mime_types, hj, hc]
      · simp [mime_types, hj, hc]
  · simp only [query, hmj]
  · simp only [query, hmc]

/-- Claim C7 witness: format "xml" dies at once with zero attempts and the
unsupported-format error; format "json" issues the mapped Accept header. -/
theorem claim_c7_format_validation_witness :
    (query ⟨"e", [("User-Agent", "u")], 3⟩ "q" false "xml"
        (fun _ => .resp ⟨200, none, ""⟩)).attempts = 0
    ∧ (query ⟨"e", [("User-Agent", "u")], 3⟩ "q" false "xml"
        (fun _ => .resp ⟨200, none, ""⟩)).outcome
        = .error (.valueError (unsupported_format_msg "xml"))
    ∧ (query ⟨"e", [("User-Agent", "u")], 3⟩ "q" false "json"
        (fun _ => .resp ⟨200, none, ""⟩)).request_headers
        = some [("User-Agent", "u"), ("Accept", "application/sparql-results+json")] := by
  have h := claim_c7_format_validation ⟨"e", [("User-Agent", "u")], 3⟩ "q" false "xml"
    (fun _ => .resp ⟨200, none, ""⟩)
  have h2 := claim_c7_format_validation ⟨"e", [("User-Agent", "u")], 3⟩ "q" false "json"
    (fun _ => .resp ⟨200, none, ""⟩)
  exact ⟨(h.1 rfl).1, (h.1 rfl).2.1, h2.2.2.1⟩

/-- Claim C8: a call to query leaves the client state — endpoint, base
headers with the User-Agent, and the 429 retry maximum — exactly as it
was, and the outer attempt counter is local to the call: a subsequent call
on the post-call client behaves identically to one on the original
client. -/
theorem claim_c8_client_state_unchanged
    (c : Client) (sparql sparql2 : String) (up up2 : Bool) (format format2 : String)
    (tr tr2 : Nat → TransportResult) :
    (query c sparql up format tr).client = c
    ∧ query ((query c sparql up format tr).client) sparql2 up2 format2 tr2
        = query c sparql2 up2 format2 tr2 := by
  have h : (query c sparql up format tr).client = c := by
    cases hm : mime_types format with
    | none => simp [query, hm]
    | some mime =>
      simp only [query, hm]
      exact query_loop_client_eq format tr (c.max_429_retries + 1) c 0 0 []
  exact ⟨h, by rw [h]⟩

/-- Claim C9: for every call, whatever the format, the transport behaviour
and the (non-negative, being a Nat) retry maximum, the outcome is never the
trailing return None: the call returns a decoded result — a json decode for
the json format, raw text for csv — or raises an error.  Every response is
consumed by the ok test (statuses outside [400, 600)), the 429 branch, or
raise_for_status (the remaining statuses in [400, 600)), and every raised
exception propagates, so the loop cannot fall through its last iteration. -/
theorem claim_c9_no_none
    (c : Client) (sparql : String) (up : Bool) (format : String)
    (tr : Nat → TransportResult) :
    (query c sparql up format tr).outcome ≠ .noneResult
    ∧ (∀ q, (query c sparql up format tr).outcome = .success q →
        (format = "json" → ∃ b, q = .jsonResult b)
        ∧ (format = "csv" → ∃ b, q = .textResult b)) := by
  constructor
  · cases hm : mime_types format with
    | none => simp [query, hm]
    | some mime =>
      simp only [query, hm]
      exact query_loop_ne_none format tr (c.max_429_retries + 1)
        (by omega) c 0 0 [] (by omega)
  · intro q hq
    cases hm : mime_types format with
    | none => simp [query, hm] at hq
    | some mime =>
      simp only [query, hm] at hq
      obtain ⟨r, hr⟩ := query_loop_success_shape format tr
        (c.max_429_retries + 1) c 0 0 [] q hq
      subst hr
      constructor
      · intro hj
        subst hj
        exact ⟨r.body, rfl⟩
      · intro hc
        subst hc
        exact ⟨r.body, rfl⟩

/-- Claim C9 witness: an immediate 200 yields a decoded json result and
certainly not None. -/
theorem claim_c9_no_none_witness :
    (query ⟨"e", [], 3⟩ "q" false "json" (fun _ => .resp ⟨200, none, "b"⟩)).outcome
        ≠ .noneResult := by
  exact (claim_c9_no_none ⟨"e", [], 3⟩ "q" false "json"
    (fun _ => .resp ⟨200, none, "b"⟩)).1

/-- Claim C10 counterexample: success classification is not "exactly when
the status code is below 400".  requests computes ok by calling
raise_for_status, which raises only for statuses in [400, 600); a status of
999 therefore tests ok, and the call decodes and returns it as a success
after one attempt even though 999 is not below 400. -/
theorem claim_c10_counterexample :
    Response.ok ⟨999, none, "b"⟩ = true
    ∧ ¬ (999 < 400)
    ∧ (query ⟨"e", [], 3⟩ "q" false "json" (fun _ => .resp ⟨999, none, "b"⟩)).outcome
        = .success (.jsonResult "b")
    ∧ (query ⟨"e", [], 3⟩ "q" false "json" (fun _ => .resp ⟨999, none, "b"⟩)).attempts
        = 1 := by
  refine ⟨by decide, by decide, by decide, by decide⟩

/-- Claim C10 amended: the query operation classifies a response as success
exactly when the requests ok test holds, which is exactly when the status
code lies outside the [400, 600) window in which raise_for_status raises —
not exactly when it is below 400, since statuses of 600 and above also test
ok.  In particular every response with a 3xx status is decoded and returned
as a success after that one attempt, not surfaced as an HTTP-status
failure. -/
theorem claim_c10_ok_amended
    (c : Client) (sparql : String) (up : Bool) (tr : Nat → TransportResult)
    (r : Response) (h0 : tr 0 = .resp r) :
    (r.ok = true ↔ (r.status < 400 ∨ 600 ≤ r.status))
    ∧ (r.ok = true →
        (query c sparql up "json" tr).outcome = .success (decode_body "json" r)
        ∧ (query c sparql up "json" tr).attempts = 1)
    ∧ (300 ≤ r.status → r.status < 400 →
        (query c sparql up "json" tr).outcome = .success (.jsonResult r.body)
        ∧ (query c sparql up "json" tr).attempts = 1) := by
  have hmj : mime_types "json" = some "application/sparql-results+json" := rfl
  refine ⟨Response.ok_iff r, ?_, ?_⟩
  · intro hok
    have hstep := query_loop_step_ok "json" tr c 0 c.max_429_retries 0 [] r h0 hok
    constructor
    · simp only [query, hmj]
      rw [hstep]
    · simp only [query, hmj]
      rw [hstep]
  · intro h3 h4
    have hok : r.ok = true := (Response.ok_iff r).mpr (Or.inl h4)
    have hstep := query_loop_step_ok "json" tr c 0 c.max_429_retries 0 [] r h0 hok
    constructor
    · simp only [query, hmj]
      rw [hstep]
      rfl
    · simp only [query, hmj]
      rw [hstep]

/-- Claim C10 amended witness: a 301 response is returned as a decoded
success after one attempt. -/
theorem claim_c10_ok_amended_witness :
    (query ⟨"e", [], 3⟩ "q" false "json" (fun _ => .resp ⟨301, none, "moved"⟩)).outcome
        = .success (.jsonResult "moved")
    ∧ (query ⟨"e", [], 3⟩ "q" false "json"
        (fun _ => .resp ⟨301, none, "moved"⟩)).attempts = 1 := by
  have h := claim_c10_ok_amended ⟨"e", [], 3⟩ "q" false
    (fun _ => .resp ⟨301, none, "moved"⟩) ⟨301, none, "moved"⟩ rfl
  exact ⟨(h.2.2 (by decide) (by decide)).1, (h.2.2 (by decide) (by decide)).2⟩

end Wikidata
